import Mathlib

/-!
Verification development for the threat-detection pipeline: a shallow
embedding of `src/ai_models/threat_detector.py`,
`src/real_time/stream_processor.py`, `src/alerting/alert_manager.py` and
`src/data_collection/network_monitor.py`, with theorems about the
feature-to-score reduction, severity classification, deduplication,
capped store lists, rule matching, cooldown suppression and webhook
delivery classification.  Python floats are modelled as exact rationals;
all values appearing in the embedded code paths are small decimal
fractions whose comparisons are unaffected by rounding.
-/

namespace ThreatDetection

/-- Network packet record, the fields `detect_threat` reads from the
packet dict (`NetworkPacket` in network_monitor.py serialized to a dict;
missing fields default to 0 / "0.0.0.0" as in `dict.get`). -/
structure PacketData where
  timestamp : ℚ
  src_ip : String
  dst_ip : String
  src_port : ℚ
  dst_port : ℚ
  protocol : ℤ
  packet_size : ℚ
deriving DecidableEq

/-- System metrics record, the fields `extract_system_features` reads
(`SystemMetrics` in network_monitor.py serialized to a dict). -/
structure MetricsData where
  timestamp : ℚ
  cpu_percent : ℚ
  memory_percent : ℚ
  disk_usage : ℚ
  bytes_sent : ℚ
  bytes_recv : ℚ
  packets_sent : ℚ
  packets_recv : ℚ
  active_connections : ℚ
deriving DecidableEq

/-- Features produced by `ThreatDetector.extract_network_features`. -/
structure NetworkFeatures where
  packet_size : ℚ
  src_port : ℚ
  dst_port : ℚ
  is_tcp : ℚ
  is_udp : ℚ
  is_icmp : ℚ
  src_ip_numeric : ℚ
  dst_ip_numeric : ℚ
  is_well_known_port : ℚ
  is_high_port : ℚ
  packet_ratio : ℚ
  port_difference : ℚ
deriving DecidableEq

/-- Features produced by `ThreatDetector.extract_system_features`. -/
structure SystemFeatures where
  cpu_percent : ℚ
  memory_percent : ℚ
  disk_usage : ℚ
  bytes_sent : ℚ
  bytes_recv : ℚ
  packets_sent : ℚ
  packets_recv : ℚ
  active_connections : ℚ
  network_ratio : ℚ
  packet_ratio : ℚ
  resource_utilization : ℚ
deriving DecidableEq

/-- The merged feature dict `all_features = \x7b**network_features,
**system_features\x7d`.  Both extractors emit a `packet_ratio` key, so
the system value overwrites the network one in the merge. -/
structure AllFeatures where
  packet_size : ℚ
  src_port : ℚ
  dst_port : ℚ
  is_tcp : ℚ
  is_udp : ℚ
  is_icmp : ℚ
  src_ip_numeric : ℚ
  dst_ip_numeric : ℚ
  is_well_known_port : ℚ
  is_high_port : ℚ
  port_difference : ℚ
  cpu_percent : ℚ
  memory_percent : ℚ
  disk_usage : ℚ
  bytes_sent : ℚ
  bytes_recv : ℚ
  packets_sent : ℚ
  packets_recv : ℚ
  active_connections : ℚ
  network_ratio : ℚ
  packet_ratio : ℚ
  resource_utilization : ℚ
deriving DecidableEq

/-- `ThreatDetector._ip_to_numeric`: dotted-quad to 32-bit-style number,
0 on any parse failure. -/
def ipToNumeric (ip : String) : ℚ :=
  let parts := ip.splitOn "."
  if parts.length = 4 then
    match parts.mapM String.toInt? with
    | some ns => ((((ns.zipWith (fun n i => n * 256 ^ i) [3, 2, 1, 0]).sum : ℤ) : ℚ))
    | none => 0
  else 0

/-- `ThreatDetector._is_well_known_port`: 0 ≤ port ≤ 1023. -/
def isWellKnownPort (port : ℚ) : Bool :=
  decide (0 ≤ port ∧ port ≤ 1023)

/-- `ThreatDetector.extract_network_features`. -/
def extractNetworkFeatures (p : PacketData) : NetworkFeatures where
  packet_size := p.packet_size
  src_port := p.src_port
  dst_port := p.dst_port
  is_tcp := if p.protocol = 6 then 1 else 0
  is_udp := if p.protocol = 17 then 1 else 0
  is_icmp := if p.protocol = 1 then 1 else 0
  src_ip_numeric := ipToNumeric p.src_ip
  dst_ip_numeric := ipToNumeric p.dst_ip
  is_well_known_port := if isWellKnownPort p.dst_port then 1 else 0
  is_high_port := if p.dst_port > 1024 then 1 else 0
  packet_ratio := p.packet_size / 1500
  port_difference := |p.src_port - p.dst_port|

/-- `ThreatDetector.extract_system_features`. -/
def extractSystemFeatures (m : MetricsData) : SystemFeatures where
  cpu_percent := m.cpu_percent
  memory_percent := m.memory_percent
  disk_usage := m.disk_usage
  bytes_sent := m.bytes_sent
  bytes_recv := m.bytes_recv
  packets_sent := m.packets_sent
  packets_recv := m.packets_recv
  active_connections := m.active_connections
  network_ratio := m.bytes_sent / (m.bytes_recv + 1)
  packet_ratio := m.packets_sent / (m.packets_recv + 1)
  resource_utilization := (m.cpu_percent + m.memory_percent + m.disk_usage) / 3

/-- Dict merge of the two feature maps; `packet_ratio` is taken from the
system features because they are unpacked second. -/
def mergeFeatures (nf : NetworkFeatures) (sf : SystemFeatures) : AllFeatures where
  packet_size := nf.packet_size
  src_port := nf.src_port
  dst_port := nf.dst_port
  is_tcp := nf.is_tcp
  is_udp := nf.is_udp
  is_icmp := nf.is_icmp
  src_ip_numeric := nf.src_ip_numeric
  dst_ip_numeric := nf.dst_ip_numeric
  is_well_known_port := nf.is_well_known_port
  is_high_port := nf.is_high_port
  port_difference := nf.port_difference
  cpu_percent := sf.cpu_percent
  memory_percent := sf.memory_percent
  disk_usage := sf.disk_usage
  bytes_sent := sf.bytes_sent
  bytes_recv := sf.bytes_recv
  packets_sent := sf.packets_sent
  packets_recv := sf.packets_recv
  active_connections := sf.active_connections
  network_ratio := sf.network_ratio
  packet_ratio := sf.packet_ratio
  resource_utilization := sf.resource_utilization

/-- `ThreatDetector._simple_threat_detection`: heuristic score for the
untrained model.  Four indicators adding 0.3, 0.2, 0.2, 0.3, capped at 1. -/
def simpleThreatDetection (f : AllFeatures) : ℚ :=
  let s0 : ℚ := 0
  let s1 := if f.is_high_port > 0 ∧ f.packet_size > 1000 then s0 + 3/10 else s0
  let s2 := if f.cpu_percent > 80 then s1 + 1/5 else s1
  let s3 := if f.memory_percent > 90 then s2 + 1/5 else s2
  let s4 := if f.active_connections > 100 then s3 + 3/10 else s3
  min s4 1

/-- `ThreatDetector._classify_threat_type` (the features argument is
accepted but unused, as in the source). -/
def classifyThreatType (_f : AllFeatures) (threat_score : ℚ) : String :=
  if threat_score < 3/10 then "normal"
  else if threat_score < 3/5 then "suspicious"
  else if threat_score < 4/5 then "potential_threat"
  else "high_threat"

/-- `ThreatDetector._generate_explanation`. -/
def generateExplanation (f : AllFeatures) (_threat_score : ℚ) (threat_type : String) : String :=
  let e1 := if f.cpu_percent > 80 then ["High CPU usage detected"] else []
  let e2 := if f.memory_percent > 90 then ["High memory usage detected"] else []
  let e3 := if f.active_connections > 100 then ["Unusual number of active connections"] else []
  let e4 := if f.packet_size > 1000 then ["Large packet size detected"] else []
  let exps := e1 ++ e2 ++ e3 ++ e4
  let exps := if exps = [] then ["No specific indicators detected"] else exps
  "Threat type: " ++ threat_type ++ ". " ++ String.intercalate ". " exps

/-- `ThreatDetectionResult` dataclass. -/
structure ThreatDetectionResult where
  is_threat : Bool
  threat_score : ℚ
  threat_type : String
  confidence : ℚ
  features : AllFeatures
  explanation : String
deriving DecidableEq

/-- `settings.threat_threshold` default (config/settings.py). -/
def threat_threshold : ℚ := 7/10

/-- `ThreatDetector.detect_threat` on the `is_trained = False` branch
(no exception raised): the classifier probability is replaced by the
heuristic `_simple_threat_detection` and the deep-learning prediction by
the constant 0.5, averaged 50/50. -/
def detectThreatUntrained (threshold : ℚ) (p : PacketData) (m : MetricsData) :
    ThreatDetectionResult :=
  let nf := extractNetworkFeatures p
  let sf := extractSystemFeatures m
  let af := mergeFeatures nf sf
  let threat_score := simpleThreatDetection af
  let dl_prediction : ℚ := 1/2
  let final_threat_score := (threat_score + dl_prediction) / 2
  let threat_type := classifyThreatType af final_threat_score
  let confidence := min (|final_threat_score - 1/2| * 2) 1
  { is_threat := decide (final_threat_score > threshold)
    threat_score := final_threat_score
    threat_type := threat_type
    confidence := confidence
    features := af
    explanation := generateExplanation af final_threat_score threat_type }

/-- `StreamProcessor._determine_severity`. -/
def determineSeverity (threat_result : ThreatDetectionResult) : String :=
  if ¬threat_result.is_threat then "low"
  else if threat_result.threat_score < 1/2 then "medium"
  else if threat_result.threat_score < 4/5 then "high"
  else "critical"

/-- `ProcessedEvent` dataclass (stream_processor.py). -/
structure ProcessedEvent where
  timestamp : ℚ
  event_type : String
  threat_result : Option ThreatDetectionResult
  packet_data : Option PacketData
  metrics_data : Option MetricsData
  severity : String
  processed : Bool
deriving DecidableEq

/-- The `threat_result` fields kept in the serialized `event_data`
record that `_store_processed_event` writes and the aggregator reads. -/
structure StoredThreat where
  is_threat : Bool
  threat_score : ℚ
  threat_type : String
deriving DecidableEq

/-- The `event_data` record serialized into the store by
`_store_processed_event`. -/
structure StoredEvent where
  timestamp : ℚ
  event_type : String
  severity : String
  threat_result : Option StoredThreat
  packet_data : Option PacketData
  metrics_data : Option MetricsData
deriving DecidableEq

/-- The slice of the event store (Redis) the stream processor touches:
`processed:<id>` existence markers with their expiry instants, and the
two capped lists (most-recent-first). -/
structure Store where
  processed : List (String × ℚ)
  recent_events : List StoredEvent
  threat_events : List StoredEvent
deriving DecidableEq

/-- First-match association lookup (a later `SETEX` on the same key is
prepended, so the first hit is the live value). -/
def lookupKey (id : String) : List (String × ℚ) → Option ℚ
  | [] => none
  | (k, v) :: rest => if k = id then some v else lookupKey id rest

/-- The dedup key `f"\x7bpacket.get('timestamp')\x7d_\x7bpacket.get('src_ip')\x7d_\x7bpacket.get('dst_ip')\x7d"`
built in `_process_data_pairs`. -/
def packetId (p : PacketData) : String :=
  toString p.timestamp ++ "_" ++ p.src_ip ++ "_" ++ p.dst_ip

/-- `StreamProcessor._is_already_processed`: Redis `EXISTS processed:<id>`
at instant `now`, false once the TTL has lapsed. -/
def isAlreadyProcessed (st : Store) (now : ℚ) (event_id : String) : Bool :=
  match lookupKey ("processed:" ++ event_id) st.processed with
  | some expiry => decide (now < expiry)
  | none => false

/-- The `event_data` dict `_store_processed_event` serializes. -/
def mkEventData (e : ProcessedEvent) : StoredEvent where
  timestamp := e.timestamp
  event_type := e.event_type
  severity := e.severity
  threat_result := e.threat_result.map fun tr =>
    { is_threat := tr.is_threat, threat_score := tr.threat_score
      threat_type := tr.threat_type }
  packet_data := e.packet_data
  metrics_data := e.metrics_data

/-- The guard `event.threat_result and event.threat_result.is_threat`. -/
def threatFlag (e : ProcessedEvent) : Bool :=
  match e.threat_result with
  | some tr => tr.is_threat
  | none => false

/-- `StreamProcessor._store_processed_event`: `SETEX processed:<id>` with
a 3600 s TTL, `LPUSH recent_events` + `LTRIM 0 999`, and for threats
`LPUSH threat_events` + `LTRIM 0 499`. -/
def storeProcessedEvent (e : ProcessedEvent) (event_id : String) (st : Store) (now : ℚ) :
    Store :=
  let data := mkEventData e
  let st1 : Store := { st with processed := ("processed:" ++ event_id, now + 3600) :: st.processed }
  let st2 : Store := { st1 with recent_events := (data :: st1.recent_events).take 1000 }
  if threatFlag e then
    { st2 with threat_events := (data :: st2.threat_events).take 500 }
  else st2

/-- `StreamProcessor._process_single_event` (untrained detector): score
the pair, build the `ProcessedEvent`, persist it. -/
def processSingleEvent (p : PacketData) (m : MetricsData) (event_id : String)
    (st : Store) (now : ℚ) : Store :=
  let threat_result := detectThreatUntrained threat_threshold p m
  let ev : ProcessedEvent :=
    { timestamp := now
      event_type := "network_packet"
      threat_result := some threat_result
      packet_data := some p
      metrics_data := some m
      severity := determineSeverity threat_result
      processed := true }
  storeProcessedEvent ev event_id st now

/-- `StreamProcessor._process_data_pairs`: with no metrics, return; else
pair each packet with the newest metrics record, skipping packets whose
`processed:<id>` marker still exists. -/
def processDataPairs (packets : List PacketData) (metrics : List MetricsData)
    (st : Store) (now : ℚ) : Store :=
  match metrics with
  | [] => st
  | latest_metrics :: _ =>
    packets.foldl
      (fun s packet =>
        let packet_id := packetId packet
        if isAlreadyProcessed s now packet_id then s
        else processSingleEvent packet latest_metrics packet_id s now)
      st

/-- The four-key severity histogram initialised to zeros in
`_aggregate_threat_stats`. -/
structure SeverityCounts where
  low : ℕ
  medium : ℕ
  high : ℕ
  critical : ℕ
deriving DecidableEq

def zeroSeverityCounts : SeverityCounts := ⟨0, 0, 0, 0⟩

/-- `severity_counts[severity] += 1`: a severity outside the four keys
raises `KeyError` (modelled as `none`). -/
def bumpSeverity (sc : SeverityCounts) (sev : String) : Option SeverityCounts :=
  if sev = "low" then some { sc with low := sc.low + 1 }
  else if sev = "medium" then some { sc with medium := sc.medium + 1 }
  else if sev = "high" then some { sc with high := sc.high + 1 }
  else if sev = "critical" then some { sc with critical := sc.critical + 1 }
  else none

/-- `threat_types[threat_type] = threat_types.get(threat_type, 0) + 1`,
preserving first-insertion order as a Python dict does. -/
def bumpType (tt : List (String × ℕ)) (ty : String) : List (String × ℕ) :=
  match tt with
  | [] => [(ty, 1)]
  | (k, n) :: rest => if k = ty then (k, n + 1) :: rest else (k, n) :: bumpType rest ty

/-- The counting loop of `_aggregate_threat_stats` over the window. -/
def countEvents : List StoredEvent → List (String × ℕ) → SeverityCounts →
    Option (List (String × ℕ) × SeverityCounts)
  | [], tt, sc => some (tt, sc)
  | e :: rest, tt, sc =>
    let tt1 := match e.threat_result with
      | some tr => bumpType tt tr.threat_type
      | none => tt
    match bumpSeverity sc e.severity with
    | some sc1 => countEvents rest tt1 sc1
    | none => none

/-- The `stats_data` blob written under `threat_stats`. -/
structure StatsSnapshot where
  timestamp : ℚ
  threat_types : List (String × ℕ)
  severity_counts : SeverityCounts
  total_threats : ℕ
deriving DecidableEq

/-- `StreamProcessor._aggregate_threat_stats`: read the last 100 threat
events; on an empty window return early writing nothing (`Except.ok none`);
a `KeyError` in the loop is caught and also writes nothing
(`Except.error`); otherwise write the snapshot (`Except.ok (some s)`). -/
def aggregateThreatStats (threat_events : List StoredEvent) (now : ℚ) :
    Except String (Option StatsSnapshot) :=
  let window := threat_events.take 100
  if window.isEmpty then Except.ok none
  else
    match countEvents window [] zeroSeverityCounts with
    | none => Except.error "KeyError"
    | some (tt, sc) =>
      Except.ok (some { timestamp := now, threat_types := tt
                        severity_counts := sc, total_threats := window.length })

/-- The slice of the store the network monitor touches
(`_process_packet_data` / `_process_metrics_data`). -/
structure NetStore where
  kv : List (String × ℚ)
  recent_packets : List PacketData
  recent_metrics : List MetricsData
deriving DecidableEq

/-- `NetworkMonitor._process_packet_data`: `SETEX packet:<ts>` (3600 s),
`LPUSH recent_packets` + `LTRIM 0 999`. -/
def processPacketData (p : PacketData) (ns : NetStore) (now : ℚ) : NetStore :=
  let ns1 : NetStore := { ns with kv := ("packet:" ++ toString p.timestamp, now + 3600) :: ns.kv }
  { ns1 with recent_packets := (p :: ns1.recent_packets).take 1000 }

/-- `NetworkMonitor._process_metrics_data`: `SETEX metrics:<ts>` (3600 s),
`LPUSH recent_metrics` + `LTRIM 0 99`. -/
def processMetricsData (m : MetricsData) (ns : NetStore) (now : ℚ) : NetStore :=
  let ns1 : NetStore := { ns with kv := ("metrics:" ++ toString m.timestamp, now + 3600) :: ns.kv }
  { ns1 with recent_metrics := (m :: ns1.recent_metrics).take 100 }

/-- `AlertSeverity` enum (alert_manager.py). -/
inductive AlertLevel where
  | low
  | medium
  | high
  | critical
deriving DecidableEq

/-- `AlertChannel` enum. -/
inductive AlertChannel where
  | email
  | slack
  | webhook
  | log
deriving DecidableEq

/-- The part of the `asdict(event)` payload that `_evaluate_condition`
reads: `event_data.get('metrics_data', \x7b\x7d)`. -/
structure EventData where
  metrics_data : Option MetricsData
deriving DecidableEq

/-- `Alert` dataclass. -/
structure Alert where
  id : String
  timestamp : ℚ
  severity : AlertLevel
  title : String
  description : String
  threat_result : Option ThreatDetectionResult
  event_data : Option EventData
  channels : List AlertChannel
  sent : Bool := false
  retry_count : ℕ := 0
deriving DecidableEq

/-- `AlertRule` dataclass. -/
structure AlertRule where
  name : String
  condition : String
  severity : AlertLevel
  channels : List AlertChannel
  cooldown : ℚ
  enabled : Bool := true
deriving DecidableEq

/-- Character-list leading-match helper for substring containment. -/
def charsLead : List Char → List Char → Bool
  | [], _ => true
  | _ :: _, [] => false
  | c :: cs, d :: ds => c = d && charsLead cs ds

/-- Character-list containment helper. -/
def charsWithin (pat : List Char) : List Char → Bool
  | [] => charsLead pat []
  | d :: ds => charsLead pat (d :: ds) || charsWithin pat ds

/-- Python's `pat in s` substring test. -/
def strContains (s pat : String) : Bool :=
  charsWithin pat.data s.data

/-- `AlertManager._evaluate_condition`: substring-matched dispatch, first
over the threat-score thresholds when a `threat_result` is attached, then
over the metrics thresholds when `event_data` is attached, else false. -/
def evaluateCondition (condition : String) (alert : Alert) : Bool :=
  let fromThreat : Option Bool :=
    match alert.threat_result with
    | none => none
    | some tr =>
      if strContains condition "threat_score > 0.8" then
        some (decide (tr.threat_score > 4/5))
      else if strContains condition "threat_score > 0.6" then
        some (decide (tr.threat_score > 3/5))
      else if strContains condition "threat_score > 0.4" then
        some (decide (tr.threat_score > 2/5))
      else none
  match fromThreat with
  | some b => b
  | none =>
    match alert.event_data with
    | none => false
    | some ed =>
      let cpu_percent : ℚ := match ed.metrics_data with
        | some m => m.cpu_percent
        | none => 0
      let memory_percent : ℚ := match ed.metrics_data with
        | some m => m.memory_percent
        | none => 0
      if strContains condition "cpu_percent > 90" then
        decide (cpu_percent > 90)
      else if strContains condition "memory_percent > 90" then
        decide (memory_percent > 90)
      else false

/-- `AlertManager._find_matching_rule`: first rule in declaration order
whose condition evaluates true — the `enabled` flag is not consulted. -/
def findMatchingRule (rules : List AlertRule) (alert : Alert) : Option AlertRule :=
  match rules with
  | [] => none
  | rule :: rest =>
    if evaluateCondition rule.condition alert then some rule
    else findMatchingRule rest alert

/-- `AlertManager._should_send_alert`: no matching rule or a disabled
one refuses; otherwise refuse only when the same alert id was sent less
than `rule.cooldown` seconds ago. -/
def shouldSendAlert (rules : List AlertRule) (sent_alerts : List (String × ℚ))
    (now : ℚ) (alert : Alert) : Bool :=
  match findMatchingRule rules alert with
  | none => false
  | some rule =>
    if ¬rule.enabled then false
    else
      match lookupKey alert.id sent_alerts with
      | some last_sent => if now - last_sent < rule.cooldown then false else true
      | none => true

/-- `AlertManager._send_alert`: attempt every channel of the matching
rule independently; each attempt's failure is caught and logged, so the
outcomes (`chOk`) never propagate. Returns the attempts with outcomes. -/
def sendAlert (rules : List AlertRule) (chOk : AlertChannel → Bool)
    (alert : Alert) : List (AlertChannel × Bool) :=
  match findMatchingRule rules alert with
  | none => []
  | some rule => rule.channels.map fun c => (c, chOk c)

/-- Result of one `_process_alert` run: the updated alert, the updated
`sent_alerts` cooldown map, whether a dispatch happened, and the channel
attempts made. -/
structure AlertOutcome where
  alert : Alert
  sent_alerts : List (String × ℚ)
  dispatched : Bool
  attempts : List (AlertChannel × Bool)
deriving DecidableEq

/-- `AlertManager._process_alert`: if the cooldown check passes, send
through the channels (failures swallowed inside `_send_alert`), mark the
alert sent and record the send time; otherwise suppress silently.  No
exception can escape the body on channel failure, so the
`retry_count`/requeue branch is never taken here. -/
def processAlert (rules : List AlertRule) (chOk : AlertChannel → Bool)
    (sent_alerts : List (String × ℚ)) (now : ℚ) (alert : Alert) : AlertOutcome :=
  if shouldSendAlert rules sent_alerts now alert then
    let attempts := sendAlert rules chOk alert
    { alert := { alert with sent := true }
      sent_alerts := (alert.id, now) :: sent_alerts
      dispatched := true
      attempts := attempts }
  else
    { alert := alert, sent_alerts := sent_alerts, dispatched := false, attempts := [] }

/-- The four default rules of `_initialize_alert_rules`. -/
def highThreatRule : AlertRule :=
  { name := "High Threat Detection", condition := "threat_score > 0.8"
    severity := AlertLevel.critical
    channels := [AlertChannel.email, AlertChannel.log], cooldown := 300 }

def mediumThreatRule : AlertRule :=
  { name := "Medium Threat Detection", condition := "threat_score > 0.6"
    severity := AlertLevel.high, channels := [AlertChannel.log], cooldown := 600 }

def suspiciousActivityRule : AlertRule :=
  { name := "Suspicious Activity", condition := "threat_score > 0.4"
    severity := AlertLevel.medium, channels := [AlertChannel.log], cooldown := 1800 }

def systemResourceRule : AlertRule :=
  { name := "System Resource Alert", condition := "cpu_percent > 90 or memory_percent > 90"
    severity := AlertLevel.high
    channels := [AlertChannel.email, AlertChannel.log], cooldown := 900 }

def defaultAlertRules : List AlertRule :=
  [highThreatRule, mediumThreatRule, suspiciousActivityRule, systemResourceRule]

/-- `AlertManager._send_webhook_alert` delivery classification: no
configured URL means no attempt (`none`); with a URL, the response is
logged as success exactly when `status_code == 200`. -/
def sendWebhookAlert (webhook_url : Option String) (status_code : ℤ) : Option Bool :=
  match webhook_url with
  | none => none
  | some _ => some (decide (status_code = 200))

/-! Concrete fixtures used by witnesses and counterexamples. -/

/-- A packet aimed at the classic backdoor port 4444 carrying an
oversized payload. -/
def cexPacket : PacketData :=
  { timestamp := 1, src_ip := "192.168.1.5", dst_ip := "10.0.0.9"
    src_port := 5555, dst_port := 4444, protocol := 6, packet_size := 2000 }

/-- A metrics record with no high-CPU / high-memory / high-connection
indicator. -/
def benignMetrics : MetricsData :=
  { timestamp := 1, cpu_percent := 10, memory_percent := 20, disk_usage := 30
    bytes_sent := 100, bytes_recv := 200, packets_sent := 3, packets_recv := 4
    active_connections := 5 }

/-- An all-zero feature record (placeholder feature snapshot for
hand-built results). -/
def zeroAllFeatures : AllFeatures :=
  { packet_size := 0, src_port := 0, dst_port := 0, is_tcp := 0, is_udp := 0
    is_icmp := 0, src_ip_numeric := 0, dst_ip_numeric := 0
    is_well_known_port := 0, is_high_port := 0, port_difference := 0
    cpu_percent := 0, memory_percent := 0, disk_usage := 0, bytes_sent := 0
    bytes_recv := 0, packets_sent := 0, packets_recv := 0
    active_connections := 0, network_ratio := 0, packet_ratio := 0
    resource_utilization := 0 }

/-- A detection result with score 0.9 (matches "threat_score > 0.8"). -/
def trHigh : ThreatDetectionResult :=
  { is_threat := true, threat_score := 9/10, threat_type := "high_threat"
    confidence := 4/5, features := zeroAllFeatures, explanation := "e" }

/-- A detection result with score 0.5 (matches "threat_score > 0.4"). -/
def trMid : ThreatDetectionResult :=
  { is_threat := false, threat_score := 1/2, threat_type := "suspicious"
    confidence := 0, features := zeroAllFeatures, explanation := "e" }

/-- A non-threat result used for severity checks. -/
def trLow : ThreatDetectionResult :=
  { is_threat := false, threat_score := 9/10, threat_type := "normal"
    confidence := 0, features := zeroAllFeatures, explanation := "e" }

/-- A threat result with score 0.3 (medium severity band). -/
def trMedBand : ThreatDetectionResult :=
  { is_threat := true, threat_score := 3/10, threat_type := "suspicious"
    confidence := 0, features := zeroAllFeatures, explanation := "e" }

/-- A threat result with score 0.6 (high severity band). -/
def trHighBand : ThreatDetectionResult :=
  { is_threat := true, threat_score := 3/5, threat_type := "potential_threat"
    confidence := 0, features := zeroAllFeatures, explanation := "e" }

/-- An alert carrying the 0.9-score result. -/
def alertHigh : Alert :=
  { id := "alert_1", timestamp := 0, severity := AlertLevel.critical
    title := "Threat Detected: high_threat", description := "d"
    threat_result := some trHigh, event_data := none, channels := [] }

/-- An alert carrying the 0.5-score result. -/
def alertMid : Alert :=
  { id := "alert_2", timestamp := 0, severity := AlertLevel.medium
    title := "Threat Detected: suspicious", description := "d"
    threat_result := some trMid, event_data := none, channels := [] }

/-- A disabled rule whose condition matches score-0.5 alerts. -/
def disabledSuspiciousRule : AlertRule :=
  { name := "Disabled Suspicious", condition := "threat_score > 0.4"
    severity := AlertLevel.medium, channels := [AlertChannel.log]
    cooldown := 300, enabled := false }

/-- An enabled rule, listed after the disabled one, whose condition also
matches score-0.5 alerts. -/
def enabledSuspiciousRule : AlertRule :=
  { name := "Enabled Suspicious", condition := "threat_score > 0.4"
    severity := AlertLevel.medium, channels := [AlertChannel.log]
    cooldown := 300, enabled := true }

/-- An empty stream-processor store. -/
def emptyStore : Store := { processed := [], recent_events := [], threat_events := [] }

/-- An empty network-monitor store. -/
def emptyNetStore : NetStore := { kv := [], recent_packets := [], recent_metrics := [] }

/-- A processed event flagged as a threat (exercises the
`threat_events` push). -/
def threatEvent : ProcessedEvent :=
  { timestamp := 1, event_type := "network_packet", threat_result := some trHigh
    packet_data := some cexPacket, metrics_data := some benignMetrics
    severity := "critical", processed := true }

/-- The all-zero snapshot the spec expects for an empty window. -/
def emptySnapshot : StatsSnapshot :=
  { timestamp := 0, threat_types := [], severity_counts := zeroSeverityCounts
    total_threats := 0 }

/-- A stored threat event for exercising the aggregator. -/
def storedThreatEvent : StoredEvent :=
  { timestamp := 1, event_type := "network_packet", severity := "critical"
    threat_result := some { is_threat := true, threat_score := 9/10
                            threat_type := "high_threat" }
    packet_data := none, metrics_data := none }

/-- The snapshot the aggregator produces from one critical high_threat
event. -/
def oneThreatSnapshot : StatsSnapshot :=
  { timestamp := 0, threat_types := [("high_threat", 1)]
    severity_counts := { low := 0, medium := 0, high := 0, critical := 1 }
    total_threats := 1 }

/-! Helper lemmas about the heuristic score path. -/

/-- The heuristic score is always within [0, 1]. -/
theorem simpleThreatDetection_mem (f : AllFeatures) :
    0 ≤ simpleThreatDetection f ∧ simpleThreatDetection f ≤ 1 := by
  unfold simpleThreatDetection
  by_cases c1 : f.is_high_port > 0 ∧ f.packet_size > 1000 <;>
  by_cases c2 : f.cpu_percent > 80 <;>
  by_cases c3 : f.memory_percent > 90 <;>
  by_cases c4 : f.active_connections > 100 <;>
  simp [c1, c2, c3, c4, min_def] <;> norm_num

/-- The heuristic exceeds 0.9 exactly when all four indicators fire, and
in that case it equals 1. -/
theorem simpleThreatDetection_gt_iff (f : AllFeatures) :
    (simpleThreatDetection f > 9/10 ↔
      ((f.is_high_port > 0 ∧ f.packet_size > 1000) ∧ f.cpu_percent > 80 ∧
        f.memory_percent > 90 ∧ f.active_connections > 100))
    ∧ (simpleThreatDetection f > 9/10 ↔ simpleThreatDetection f = 1) := by
  unfold simpleThreatDetection
  by_cases c1 : f.is_high_port > 0 ∧ f.packet_size > 1000 <;>
  by_cases c2 : f.cpu_percent > 80 <;>
  by_cases c3 : f.memory_percent > 90 <;>
  by_cases c4 : f.active_connections > 100 <;>
  simp [c1, c2, c3, c4, min_def] <;> norm_num

/-- Untrained final score is the 50/50 average of heuristic and 0.5. -/
theorem detect_score_eq (th : ℚ) (p : PacketData) (m : MetricsData) :
    (detectThreatUntrained th p m).threat_score =
      (simpleThreatDetection (mergeFeatures (extractNetworkFeatures p)
        (extractSystemFeatures m)) + 1/2) / 2 := by
  simp [detectThreatUntrained]

/-- Untrained threat type is the banding of the final score. -/
theorem detect_type_eq (th : ℚ) (p : PacketData) (m : MetricsData) :
    (detectThreatUntrained th p m).threat_type =
      classifyThreatType (mergeFeatures (extractNetworkFeatures p) (extractSystemFeatures m))
        ((simpleThreatDetection (mergeFeatures (extractNetworkFeatures p)
          (extractSystemFeatures m)) + 1/2) / 2) := by
  simp [detectThreatUntrained]

/-- Untrained threat flag is the threshold comparison on the final score. -/
theorem detect_is_threat_eq (th : ℚ) (p : PacketData) (m : MetricsData) :
    (detectThreatUntrained th p m).is_threat =
      decide ((simpleThreatDetection (mergeFeatures (extractNetworkFeatures p)
        (extractSystemFeatures m)) + 1/2) / 2 > th) := by
  simp [detectThreatUntrained]

/-- Below 0.8 the banding never yields "high_threat". -/
theorem classify_ne_high (f : AllFeatures) (s : ℚ) (hs : s < 4/5) :
    classifyThreatType f s ≠ "high_threat" := by
  unfold classifyThreatType
  split_ifs <;> simp_all

/-- C10: with no trained model and no internal error, the final
threat_score equals (heuristic + 0.5) / 2 and lies in [0.25, 0.75];
threat_type is never "high_threat"; with the default threshold 0.7,
is_threat holds exactly when the heuristic exceeds 0.9, which happens
exactly when all four indicators fire, forcing the heuristic to 1.0. -/
theorem C10_untrained_score_bounds (p : PacketData) (m : MetricsData) :
    (detectThreatUntrained threat_threshold p m).threat_score =
      (simpleThreatDetection (mergeFeatures (extractNetworkFeatures p)
        (extractSystemFeatures m)) + 1/2) / 2
    ∧ 1/4 ≤ (detectThreatUntrained threat_threshold p m).threat_score
    ∧ (detectThreatUntrained threat_threshold p m).threat_score ≤ 3/4
    ∧ (detectThreatUntrained threat_threshold p m).threat_type ≠ "high_threat"
    ∧ ((detectThreatUntrained threat_threshold p m).is_threat = true ↔
        simpleThreatDetection (mergeFeatures (extractNetworkFeatures p)
          (extractSystemFeatures m)) > 9/10)
    ∧ (simpleThreatDetection (mergeFeatures (extractNetworkFeatures p)
          (extractSystemFeatures m)) > 9/10 ↔
        (((mergeFeatures (extractNetworkFeatures p) (extractSystemFeatures m)).is_high_port > 0
            ∧ (mergeFeatures (extractNetworkFeatures p) (extractSystemFeatures m)).packet_size > 1000)
          ∧ (mergeFeatures (extractNetworkFeatures p) (extractSystemFeatures m)).cpu_percent > 80
          ∧ (mergeFeatures (extractNetworkFeatures p) (extractSystemFeatures m)).memory_percent > 90
          ∧ (mergeFeatures (extractNetworkFeatures p) (extractSystemFeatures m)).active_connections > 100))
    ∧ (simpleThreatDetection (mergeFeatures (extractNetworkFeatures p)
          (extractSystemFeatures m)) > 9/10 ↔
        simpleThreatDetection (mergeFeatures (extractNetworkFeatures p)
          (extractSystemFeatures m)) = 1) := by
  obtain ⟨h0, h1⟩ := simpleThreatDetection_mem
    (mergeFeatures (extractNetworkFeatures p) (extractSystemFeatures m))
  refine ⟨detect_score_eq _ p m, ?_, ?_, ?_, ?_,
    (simpleThreatDetection_gt_iff _).1, (simpleThreatDetection_gt_iff _).2⟩
  · rw [detect_score_eq]; linarith
  · rw [detect_score_eq]; linarith
  · rw [detect_type_eq]
    exact classify_ne_high _ _ (by linarith)
  · rw [detect_is_threat_eq]
    simp only [decide_eq_true_eq, threat_threshold]
    constructor <;> intro hx <;> [linarith; linarith]

/-- C1 (refuted): the untrained pipeline on dst_port 4444 / packet_size
2000 with benign metrics yields threat_score 0.4, type "suspicious" and
is_threat false — not score ≥ 0.8 / "high_threat" / true as claimed. -/
theorem C1_counterexample :
    ¬(4/5 ≤ (detectThreatUntrained threat_threshold cexPacket benignMetrics).threat_score
        ∧ (detectThreatUntrained threat_threshold cexPacket benignMetrics).threat_type = "high_threat"
        ∧ (detectThreatUntrained threat_threshold cexPacket benignMetrics).is_threat = true)
    ∧ (detectThreatUntrained threat_threshold cexPacket benignMetrics).threat_score = 2/5
    ∧ (detectThreatUntrained threat_threshold cexPacket benignMetrics).threat_type = "suspicious"
    ∧ (detectThreatUntrained threat_threshold cexPacket benignMetrics).is_threat = false := by
  refine ⟨?_, ?_, ?_, ?_⟩ <;>
    norm_num [detectThreatUntrained, simpleThreatDetection, classifyThreatType,
      mergeFeatures, extractNetworkFeatures, extractSystemFeatures, threat_threshold,
      cexPacket, benignMetrics]

/-- C1 (amended): with no trained model, a packet record with dst_port
4444 and packet_size 2000 and any metrics record without
high-CPU/memory/connection indicators yields threat_score 0.4 (only the
high-port/large-packet indicator fires, adding 0.3 to the heuristic,
averaged with 0.5), threat_type "suspicious", and is_threat false. -/
theorem C1_amended_untrained_heuristic (p : PacketData) (m : MetricsData)
    (hport : p.dst_port = 4444) (hsize : p.packet_size = 2000)
    (hcpu : m.cpu_percent ≤ 80) (hmem : m.memory_percent ≤ 90)
    (hconn : m.active_connections ≤ 100) :
    (detectThreatUntrained threat_threshold p m).threat_score = 2/5
    ∧ (detectThreatUntrained threat_threshold p m).threat_type = "suspicious"
    ∧ (detectThreatUntrained threat_threshold p m).is_threat = false := by
  have hc : ¬m.cpu_percent > 80 := not_lt.2 hcpu
  have hm : ¬m.memory_percent > 90 := not_lt.2 hmem
  have hn : ¬m.active_connections > 100 := not_lt.2 hconn
  refine ⟨?_, ?_, ?_⟩ <;>
    norm_num [detectThreatUntrained, simpleThreatDetection, classifyThreatType,
      mergeFeatures, extractNetworkFeatures, extractSystemFeatures, threat_threshold,
      hport, hsize, hc, hm, hn]

/-- C1 (amended) instantiated at the concrete fixture. -/
theorem C1_amended_untrained_heuristic_witness :
    cexPacket.dst_port = 4444 ∧ cexPacket.packet_size = 2000
    ∧ benignMetrics.cpu_percent ≤ 80 ∧ benignMetrics.memory_percent ≤ 90
    ∧ benignMetrics.active_connections ≤ 100
    ∧ ((detectThreatUntrained threat_threshold cexPacket benignMetrics).threat_score = 2/5
      ∧ (detectThreatUntrained threat_threshold cexPacket benignMetrics).threat_type = "suspicious"
      ∧ (detectThreatUntrained threat_threshold cexPacket benignMetrics).is_threat = false) :=
  ⟨rfl, rfl, by norm_num [benignMetrics], by norm_num [benignMetrics],
    by norm_num [benignMetrics],
    C1_amended_untrained_heuristic cexPacket benignMetrics rfl rfl
      (by norm_num [benignMetrics]) (by norm_num [benignMetrics])
      (by norm_num [benignMetrics])⟩

/-- C6: severity of a processed event is a pure deterministic function
of its ThreatResult computed as: not a threat → "low"; score < 0.5 →
"medium"; score < 0.8 → "high"; otherwise "critical". -/
theorem C6_severity_pure (tr tr' : ThreatDetectionResult) :
    (tr.is_threat = tr'.is_threat → tr.threat_score = tr'.threat_score →
      determineSeverity tr = determineSeverity tr')
    ∧ (tr.is_threat = false → determineSeverity tr = "low")
    ∧ (tr.is_threat = true → tr.threat_score < 1/2 → determineSeverity tr = "medium")
    ∧ (tr.is_threat = true → ¬tr.threat_score < 1/2 → tr.threat_score < 4/5 →
        determineSeverity tr = "high")
    ∧ (tr.is_threat = true → ¬tr.threat_score < 1/2 → ¬tr.threat_score < 4/5 →
        determineSeverity tr = "critical") := by
  unfold determineSeverity
  exact ⟨fun h1 h2 => by rw [h1, h2],
    fun h => by split_ifs <;> simp_all,
    fun h hlt => by split_ifs <;> simp_all,
    fun h hge hlt => by split_ifs <;> simp_all,
    fun h hge1 hge2 => by split_ifs <;> simp_all⟩

/-- C6 instantiated on one result from each severity band. -/
theorem C6_severity_pure_witness :
    determineSeverity trLow = determineSeverity trLow
    ∧ determineSeverity trLow = "low"
    ∧ determineSeverity trMedBand = "medium"
    ∧ determineSeverity trHighBand = "high"
    ∧ determineSeverity trHigh = "critical" :=
  ⟨(C6_severity_pure trLow trLow).1 rfl rfl,
   (C6_severity_pure trLow trLow).2.1 rfl,
   (C6_severity_pure trMedBand trMedBand).2.2.1 rfl (by norm_num [trMedBand]),
   (C6_severity_pure trHighBand trHighBand).2.2.2.1 rfl (by norm_num [trHighBand])
     (by norm_num [trHighBand]),
   (C6_severity_pure trHigh trHigh).2.2.2.2 rfl (by norm_num [trHigh])
     (by norm_num [trHigh])⟩

/-! Substring-containment facts used to evaluate rule conditions. -/

/-- "threat_score > 0.8" contains itself. -/
theorem sc88 : strContains "threat_score > 0.8" "threat_score > 0.8" = true := by decide

/-- "threat_score > 0.4" does not contain "threat_score > 0.8". -/
theorem sc48 : strContains "threat_score > 0.4" "threat_score > 0.8" = false := by decide

/-- "threat_score > 0.4" does not contain "threat_score > 0.6". -/
theorem sc46 : strContains "threat_score > 0.4" "threat_score > 0.6" = false := by decide

/-- "threat_score > 0.4" contains itself. -/
theorem sc44 : strContains "threat_score > 0.4" "threat_score > 0.4" = true := by decide

/-- The high-threat condition matches the 0.9-score alert. -/
theorem evalCond_high_alertHigh : evaluateCondition "threat_score > 0.8" alertHigh = true := by
  simp [evaluateCondition, alertHigh, trHigh, sc88]
  norm_num

/-- The first default rule matches the 0.9-score alert. -/
theorem find_alertHigh : findMatchingRule defaultAlertRules alertHigh = some highThreatRule := by
  simp [defaultAlertRules, findMatchingRule, highThreatRule, evalCond_high_alertHigh]

/-- The suspicious-activity condition matches the 0.5-score alert. -/
theorem evalCond_sus_alertMid : evaluateCondition "threat_score > 0.4" alertMid = true := by
  simp [evaluateCondition, alertMid, trMid, sc48, sc46, sc44]
  norm_num

/-- With the disabled rule listed first, rule matching returns it. -/
theorem find_alertMid :
    findMatchingRule [disabledSuspiciousRule, enabledSuspiciousRule] alertMid
      = some disabledSuspiciousRule := by
  simp [findMatchingRule, disabledSuspiciousRule, evalCond_sus_alertMid]

/-- A passing cooldown check dispatches, marks sent and records the time. -/
theorem processAlert_pos (rules : List AlertRule) (chOk : AlertChannel → Bool)
    (sa : List (String × ℚ)) (now : ℚ) (alert : Alert)
    (h : shouldSendAlert rules sa now alert = true) :
    processAlert rules chOk sa now alert =
      { alert := { alert with sent := true }, sent_alerts := (alert.id, now) :: sa
        dispatched := true, attempts := sendAlert rules chOk alert } := by
  simp [processAlert, h]

/-- A failing cooldown check suppresses the alert and changes nothing. -/
theorem processAlert_neg (rules : List AlertRule) (chOk : AlertChannel → Bool)
    (sa : List (String × ℚ)) (now : ℚ) (alert : Alert)
    (h : shouldSendAlert rules sa now alert = false) :
    processAlert rules chOk sa now alert =
      { alert := alert, sent_alerts := sa, dispatched := false, attempts := [] } := by
  simp [processAlert, h]

/-- C2 (refuted): an alert matching an enabled rule whose channels all
fail is nonetheless marked sent after a single dispatch, with
retry_count still 0 — it is never retried 3 times nor dropped unsent. -/
theorem C2_counterexample :
    (processAlert defaultAlertRules (fun _ => false) [] 0 alertHigh).alert.sent = true
    ∧ (processAlert defaultAlertRules (fun _ => false) [] 0 alertHigh).alert.retry_count = 0
    ∧ (processAlert defaultAlertRules (fun _ => false) [] 0 alertHigh).dispatched = true
    ∧ (processAlert defaultAlertRules (fun _ => false) [] 0 alertHigh).attempts =
        [(AlertChannel.email, false), (AlertChannel.log, false)] := by
  have hs : shouldSendAlert defaultAlertRules [] 0 alertHigh = true := by
    simp only [shouldSendAlert, find_alertHigh, lookupKey]
    simp [highThreatRule]
  rw [processAlert_pos _ _ _ _ _ hs]
  refine ⟨rfl, rfl, rfl, ?_⟩
  simp only [sendAlert, find_alertHigh]
  simp [highThreatRule]

/-- C2 (amended): channel dispatch failures are caught inside
_send_alert and never reach _process_alert: any alert passing the
cooldown check is dispatched once, marked sent = true, its retry_count
is left unchanged, and its send time is recorded — for every channel
outcome function, including all-failing channels. -/
theorem C2_amended_failures_swallowed (rules : List AlertRule) (chOk : AlertChannel → Bool)
    (sa : List (String × ℚ)) (now : ℚ) (alert : Alert)
    (h : shouldSendAlert rules sa now alert = true) :
    (processAlert rules chOk sa now alert).alert.sent = true
    ∧ (processAlert rules chOk sa now alert).alert.retry_count = alert.retry_count
    ∧ (processAlert rules chOk sa now alert).dispatched = true
    ∧ lookupKey alert.id (processAlert rules chOk sa now alert).sent_alerts = some now := by
  refine ⟨?_, ?_, ?_, ?_⟩ <;> simp [processAlert, h, lookupKey]

/-- C2 (amended) instantiated with all channels failing. -/
theorem C2_amended_failures_swallowed_witness :
    (processAlert defaultAlertRules (fun _ => false) [] 0 alertHigh).alert.sent = true
    ∧ (processAlert defaultAlertRules (fun _ => false) [] 0 alertHigh).alert.retry_count
        = alertHigh.retry_count
    ∧ (processAlert defaultAlertRules (fun _ => false) [] 0 alertHigh).dispatched = true
    ∧ lookupKey alertHigh.id
        (processAlert defaultAlertRules (fun _ => false) [] 0 alertHigh).sent_alerts = some 0 :=
  C2_amended_failures_swallowed defaultAlertRules (fun _ => false) [] 0 alertHigh
    (by simp only [shouldSendAlert, find_alertHigh, lookupKey]; simp [highThreatRule])

/-- C4: with a matching enabled rule of cooldown C and no prior send for
the alert id, the first processing dispatches; a second one less than C
seconds later is suppressed without modifying the alert or the cooldown
map; a third one more than C seconds after the first dispatch
dispatches again. -/
theorem C4_cooldown_suppression (rules : List AlertRule) (chOk : AlertChannel → Bool)
    (r : AlertRule) (a : Alert) (C t1 t2 t3 : ℚ) (sa0 : List (String × ℚ))
    (hfind : findMatchingRule rules a = some r) (hen : r.enabled = true)
    (hcd : r.cooldown = C) (h0 : lookupKey a.id sa0 = none)
    (h12 : t2 - t1 < C) (h13 : t3 - t1 > C) :
    (processAlert rules chOk sa0 t1 a).dispatched = true
    ∧ (processAlert rules chOk (processAlert rules chOk sa0 t1 a).sent_alerts t2 a).dispatched
        = false
    ∧ (processAlert rules chOk (processAlert rules chOk sa0 t1 a).sent_alerts t2 a).alert = a
    ∧ (processAlert rules chOk (processAlert rules chOk sa0 t1 a).sent_alerts t2 a).sent_alerts
        = (processAlert rules chOk sa0 t1 a).sent_alerts
    ∧ (processAlert rules chOk (processAlert rules chOk sa0 t1 a).sent_alerts t3 a).dispatched
        = true := by
  have hs1 : shouldSendAlert rules sa0 t1 a = true := by
    simp [shouldSendAlert, hfind, hen, h0]
  have e1 : (processAlert rules chOk sa0 t1 a).sent_alerts = (a.id, t1) :: sa0 := by
    simp [processAlert, hs1]
  have hl : lookupKey a.id ((a.id, t1) :: sa0) = some t1 := by simp [lookupKey]
  have hs2 : shouldSendAlert rules ((a.id, t1) :: sa0) t2 a = false := by
    simp [shouldSendAlert, hfind, hen, hl, hcd, h12]
  have hnl : ¬(t3 - t1 < C) := not_lt.2 (le_of_lt h13)
  have hs3 : shouldSendAlert rules ((a.id, t1) :: sa0) t3 a = true := by
    simp [shouldSendAlert, hfind, hen, hl, hcd, hnl]
  refine ⟨by simp [processAlert, hs1], ?_, ?_, ?_, ?_⟩ <;>
    rw [e1] <;> simp [processAlert, hs2, hs3]

/-- C4 instantiated: cooldown 300, sends at t = 0, 100 (suppressed), 301. -/
theorem C4_cooldown_suppression_witness :
    (processAlert defaultAlertRules (fun _ => true) [] 0 alertHigh).dispatched = true
    ∧ (processAlert defaultAlertRules (fun _ => true)
        (processAlert defaultAlertRules (fun _ => true) [] 0 alertHigh).sent_alerts
        100 alertHigh).dispatched = false
    ∧ (processAlert defaultAlertRules (fun _ => true)
        (processAlert defaultAlertRules (fun _ => true) [] 0 alertHigh).sent_alerts
        100 alertHigh).alert = alertHigh
    ∧ (processAlert defaultAlertRules (fun _ => true)
        (processAlert defaultAlertRules (fun _ => true) [] 0 alertHigh).sent_alerts
        100 alertHigh).sent_alerts
        = (processAlert defaultAlertRules (fun _ => true) [] 0 alertHigh).sent_alerts
    ∧ (processAlert defaultAlertRules (fun _ => true)
        (processAlert defaultAlertRules (fun _ => true) [] 0 alertHigh).sent_alerts
        301 alertHigh).dispatched = true :=
  C4_cooldown_suppression defaultAlertRules (fun _ => true) highThreatRule alertHigh
    300 0 100 301 [] find_alertHigh rfl rfl (by simp [lookupKey]) (by norm_num) (by norm_num)

/-- C5 (refuted): a disabled earlier rule whose condition matches is
returned by rule matching and suppresses the alert even though a later
enabled rule's condition also matches — the later rule does not fire. -/
theorem C5_counterexample :
    findMatchingRule [disabledSuspiciousRule, enabledSuspiciousRule] alertMid
        = some disabledSuspiciousRule
    ∧ disabledSuspiciousRule.enabled = false
    ∧ evaluateCondition enabledSuspiciousRule.condition alertMid = true
    ∧ enabledSuspiciousRule.enabled = true
    ∧ shouldSendAlert [disabledSuspiciousRule, enabledSuspiciousRule] [] 0 alertMid = false
    ∧ (processAlert [disabledSuspiciousRule, enabledSuspiciousRule]
        (fun _ => true) [] 0 alertMid).dispatched = false := by
  have hss : shouldSendAlert [disabledSuspiciousRule, enabledSuspiciousRule] [] 0 alertMid
      = false := by
    simp only [shouldSendAlert, find_alertMid]
    simp [disabledSuspiciousRule]
  exact ⟨find_alertMid, rfl, by simpa [enabledSuspiciousRule] using evalCond_sus_alertMid,
    rfl, hss, by rw [processAlert_neg _ _ _ _ _ hss]⟩

/-- C5 (amended): rule matching returns the first rule in declaration
order whose condition matches, regardless of the enabled flag; an alert
with no matching rule is discarded without dispatch; and when that first
matching rule is disabled the alert is suppressed even if a later
enabled rule matches. -/
theorem C5_amended_first_match_any (rules : List AlertRule) (a : Alert)
    (sa : List (String × ℚ)) (now : ℚ) (chOk : AlertChannel → Bool) :
    findMatchingRule rules a = List.find? (fun r => evaluateCondition r.condition a) rules
    ∧ (findMatchingRule rules a = none →
        processAlert rules chOk sa now a =
          { alert := a, sent_alerts := sa, dispatched := false, attempts := [] })
    ∧ (∀ r, findMatchingRule rules a = some r → r.enabled = false →
        processAlert rules chOk sa now a =
          { alert := a, sent_alerts := sa, dispatched := false, attempts := [] }) := by
  refine ⟨?_, ?_, ?_⟩
  · induction rules with
    | nil => simp [findMatchingRule]
    | cons r rs ih => simp [findMatchingRule, List.find?, ih]; split <;> simp_all
  · intro h
    simp [processAlert, shouldSendAlert, h]
  · intro r h hdis
    simp [processAlert, shouldSendAlert, h, hdis]

/-- C5 (amended) instantiated at the disabled-first configuration. -/
theorem C5_amended_first_match_any_witness :
    processAlert [disabledSuspiciousRule, enabledSuspiciousRule] (fun _ => true) [] 0 alertMid =
      { alert := alertMid, sent_alerts := [], dispatched := false, attempts := [] } :=
  (C5_amended_first_match_any [disabledSuspiciousRule, enabledSuspiciousRule] alertMid
    [] 0 (fun _ => true)).2.2 disabledSuspiciousRule find_alertMid rfl

/-- C9 (refuted): a 204 response — inside the 2xx range — is classified
as a delivery failure, because only status 200 counts as success. -/
theorem C9_counterexample :
    sendWebhookAlert (some "https://example.com/hook") 204 = some false
    ∧ (200 : ℤ) ≤ 204 ∧ (204 : ℤ) ≤ 299 := by
  refine ⟨?_, by norm_num, by norm_num⟩
  simp [sendWebhookAlert]

/-- C9 (amended): with a configured URL, webhook delivery is logged as
successful exactly when the HTTP status code equals 200 (every non-200
response, 2xx included, is treated as failure); with no URL there is no
attempt. -/
theorem C9_amended_only_200 (url : String) (code : ℤ) :
    (sendWebhookAlert (some url) code = some true ↔ code = 200)
    ∧ sendWebhookAlert none code = none := by
  constructor
  · simp [sendWebhookAlert]
  · simp [sendWebhookAlert]

/-- C9 (amended) instantiated at status 200. -/
theorem C9_amended_only_200_witness :
    sendWebhookAlert (some "https://example.com/hook") 200 = some true :=
  (C9_amended_only_200 "https://example.com/hook" 200).1.mpr rfl

/-! Store lemmas. -/

/-- Storing an event always prepends the dedup marker with a 3600 s TTL,
whether or not the threat branch fires. -/
theorem store_processed_field (e : ProcessedEvent) (id : String) (st : Store) (now : ℚ) :
    (storeProcessedEvent e id st now).processed
      = ("processed:" ++ id, now + 3600) :: st.processed := by
  unfold storeProcessedEvent
  split <;> rfl

/-- Storing an event always pushes it onto recent_events and trims to
1000, whether or not the threat branch fires. -/
theorem store_recent_field (e : ProcessedEvent) (id : String) (st : Store) (now : ℚ) :
    (storeProcessedEvent e id st now).recent_events
      = (mkEventData e :: st.recent_events).take 1000 := by
  unfold storeProcessedEvent
  split <;> rfl

/-- A packet whose dedup marker still exists is skipped, leaving the
store unchanged. -/
theorem processDataPairs_skip (p : PacketData) (lm : MetricsData)
    (ms : List MetricsData) (st : Store) (now : ℚ)
    (h : isAlreadyProcessed st now (packetId p) = true) :
    processDataPairs [p] (lm :: ms) st now = st := by
  simp [processDataPairs, h]

/-- The aggregator on one critical high_threat event writes the
expected one-event snapshot. -/
theorem agg_one : aggregateThreatStats [storedThreatEvent] 0
    = Except.ok (some oneThreatSnapshot) := by
  simp [aggregateThreatStats, countEvents, bumpType, bumpSeverity, zeroSeverityCounts,
    storedThreatEvent, oneThreatSnapshot]

/-- C3 (refuted): on an empty threat-events window the aggregation step
returns early and writes nothing — it does not write the all-zero
snapshot the claim describes. -/
theorem C3_counterexample :
    aggregateThreatStats ([] : List StoredEvent) 0 = Except.ok none
    ∧ ((Except.ok none : Except String (Option StatsSnapshot))
        ≠ Except.ok (some emptySnapshot)) := by
  constructor
  · simp [aggregateThreatStats]
  · simp

/-- C3 (amended): on an empty or missing threat-events window the
aggregation step does not fail but writes no snapshot at all (early
return); any snapshot it does write comes from a nonempty window and
counts exactly the events of that window. -/
theorem C3_amended_empty_window_no_write (evs : List StoredEvent) (now : ℚ) :
    (evs = [] → aggregateThreatStats evs now = Except.ok none)
    ∧ (∀ s, aggregateThreatStats evs now = Except.ok (some s) →
        evs ≠ [] ∧ s.total_threats = (evs.take 100).length) := by
  constructor
  · intro h
    subst h
    simp [aggregateThreatStats]
  · intro s hs
    constructor
    · intro h
      subst h
      simp [aggregateThreatStats] at hs
    · unfold aggregateThreatStats at hs
      by_cases he : (evs.take 100).isEmpty
      · simp [he] at hs
      · simp only [he, if_false, Bool.false_eq_true] at hs
        rcases hcount : countEvents (evs.take 100) [] zeroSeverityCounts with _ | ⟨tt, sc⟩
        · rw [hcount] at hs
          simp at hs
        · rw [hcount] at hs
          simp only [Except.ok.injEq, Option.some.injEq] at hs
          rw [← hs]

/-- C3 (amended) instantiated at the empty window and at a one-event
window. -/
theorem C3_amended_empty_window_no_write_witness :
    aggregateThreatStats ([] : List StoredEvent) 0 = Except.ok none
    ∧ ([storedThreatEvent] ≠ ([] : List StoredEvent)
        ∧ oneThreatSnapshot.total_threats = ([storedThreatEvent].take 100).length) :=
  ⟨(C3_amended_empty_window_no_write [] 0).1 rfl,
   (C3_amended_empty_window_no_write [storedThreatEvent] 0).2 oneThreatSnapshot agg_one⟩

/-- C7: submitting the same packet (same timestamp, source and
destination address) a second time before the 3600 s TTL of its
processed:<id> marker expires leaves the store exactly as after the
first submission — exactly one ProcessedEvent is persisted, because the
existence check on the marker succeeds. -/
theorem C7_dedup_idempotent (p : PacketData) (lm lm' : MetricsData)
    (ms ms' : List MetricsData) (st : Store) (t1 t2 : ℚ)
    (hfresh : isAlreadyProcessed st t1 (packetId p) = false)
    (httl : t2 < t1 + 3600) :
    processDataPairs [p] (lm' :: ms') (processDataPairs [p] (lm :: ms) st t1) t2
      = processDataPairs [p] (lm :: ms) st t1
    ∧ (processDataPairs [p] (lm :: ms) st t1).recent_events.length
        = min 1000 (st.recent_events.length + 1)
    ∧ isAlreadyProcessed (processDataPairs [p] (lm :: ms) st t1) t2 (packetId p) = true := by
  have e1 : processDataPairs [p] (lm :: ms) st t1
      = processSingleEvent p lm (packetId p) st t1 := by
    simp [processDataPairs, hfresh]
  have hproc : (processDataPairs [p] (lm :: ms) st t1).processed
      = ("processed:" ++ packetId p, t1 + 3600) :: st.processed := by
    rw [e1]
    unfold processSingleEvent
    rw [store_processed_field]
  have halready : isAlreadyProcessed (processDataPairs [p] (lm :: ms) st t1) t2 (packetId p)
      = true := by
    simp [isAlreadyProcessed, hproc, lookupKey, httl]
  refine ⟨processDataPairs_skip p lm' ms' _ t2 halready, ?_, halready⟩
  rw [e1]
  unfold processSingleEvent
  rw [store_recent_field]
  simp [List.length_take]
  omega

/-- C7 instantiated: the fixture packet processed at t = 0 and again at
t = 10 against the empty store. -/
theorem C7_dedup_idempotent_witness :
    processDataPairs [cexPacket] [benignMetrics]
        (processDataPairs [cexPacket] [benignMetrics] emptyStore 0) 10
      = processDataPairs [cexPacket] [benignMetrics] emptyStore 0
    ∧ (processDataPairs [cexPacket] [benignMetrics] emptyStore 0).recent_events.length
        = min 1000 (emptyStore.recent_events.length + 1)
    ∧ isAlreadyProcessed (processDataPairs [cexPacket] [benignMetrics] emptyStore 0)
        10 (packetId cexPacket) = true :=
  C7_dedup_idempotent cexPacket benignMetrics benignMetrics [] [] emptyStore 0 10
    (by simp [isAlreadyProcessed, emptyStore, lookupKey]) (by norm_num)

/-- C8: every push to a capped store list is immediately trimmed to its
cap, so after any push recent_events holds at most 1000 entries,
threat_events at most 500 (whenever the threat push fires),
recent_packets at most 1000 and recent_metrics at most 100 — from any
prior store state. -/
theorem C8_caps (e : ProcessedEvent) (id : String) (st : Store) (now : ℚ)
    (p : PacketData) (m : MetricsData) (ns : NetStore) (now2 now3 : ℚ) :
    (storeProcessedEvent e id st now).recent_events.length ≤ 1000
    ∧ (threatFlag e = true → (storeProcessedEvent e id st now).threat_events.length ≤ 500)
    ∧ (processPacketData p ns now2).recent_packets.length ≤ 1000
    ∧ (processMetricsData m ns now3).recent_metrics.length ≤ 100 := by
  refine ⟨?_, ?_, ?_, ?_⟩
  · rw [store_recent_field]
    simp [List.length_take]
  · intro h
    unfold storeProcessedEvent
    simp [h, List.length_take]
  · simp [processPacketData, List.length_take]
  · simp [processMetricsData, List.length_take]

/-- C8 instantiated on a threat event and the fixture packet/metrics. -/
theorem C8_caps_witness :
    (storeProcessedEvent threatEvent "e1" emptyStore 0).recent_events.length ≤ 1000
    ∧ (storeProcessedEvent threatEvent "e1" emptyStore 0).threat_events.length ≤ 500
    ∧ (processPacketData cexPacket emptyNetStore 0).recent_packets.length ≤ 1000
    ∧ (processMetricsData benignMetrics emptyNetStore 0).recent_metrics.length ≤ 100 :=
  ⟨(C8_caps threatEvent "e1" emptyStore 0 cexPacket benignMetrics emptyNetStore 0 0).1,
   (C8_caps threatEvent "e1" emptyStore 0 cexPacket benignMetrics emptyNetStore 0 0).2.1 rfl,
   (C8_caps threatEvent "e1" emptyStore 0 cexPacket benignMetrics emptyNetStore 0 0).2.2.1,
   (C8_caps threatEvent "e1" emptyStore 0 cexPacket benignMetrics emptyNetStore 0 0).2.2.2⟩

end ThreatDetection
